import Mathlib

/-!
Shallow embedding of `fa_kit/factor_analysis.py` (the `FactorAnalysis`
class), with numpy float arrays modelled as real-valued matrices.

Conventions of the embedding:
* numpy `ndarray`s are `Mat` (a pair of dimensions with an entry
  function); 1-d row vectors such as `input_mean` / `input_scale`
  (shape `1×p`) are `ℕ → ℝ`, zero outside the valid range.
* Python in-place mutation of a caller-owned array is made explicit:
  every embedded function that mutates an array argument also returns
  the final value of that array, and a function that copies its input
  (`input_data.copy()`) returns the caller's array unchanged.
* Methods of the mutable `FactorAnalysis` object become functions
  `FAState → args → Except Err ret × FAState`: the second component is
  the state of the object after the call, including after a raise,
  mirroring Python exception semantics where assignments performed
  before the raise persist.
* Python dicts that start empty (`data_opts`, `retention_opts`,
  `rotation_opts`) are structures of `Option` fields (`none` = key
  absent or value `None`); `truthy` models Python truthiness of a
  value that may be `None`.
-/

noncomputable section

open scoped Classical

/-- A dense real matrix with run-time dimensions, modelling a 2-d numpy
array of floats. -/
structure Mat where
  r : ℕ
  c : ℕ
  f : Fin r → Fin c → ℝ

namespace Mat

/-- Matrix transpose, `data.T`. -/
def transpose (A : Mat) : Mat :=
  ⟨A.c, A.r, fun i j => A.f j i⟩

/-- Matrix product, `A.dot(B)`; dimensions always agree at every call
site of the embedding, out-of-range rows of `B` contribute zero. -/
def mul (A B : Mat) : Mat :=
  ⟨A.r, B.c, fun i j =>
    ∑ k : Fin A.c, A.f i k * (if h : (k : ℕ) < B.r then B.f ⟨k, h⟩ j else 0)⟩

/-- Column means, `np.mean(data, axis=0, keepdims=True)`, as a row
vector. -/
def colMean (A : Mat) : ℕ → ℝ := fun j =>
  if h : j < A.c then (∑ i : Fin A.r, A.f i ⟨j, h⟩) / (A.r : ℝ) else 0

/-- Column means of the squared entries,
`np.mean(data**2, axis=0, keepdims=True)`. -/
def sqColMean (A : Mat) : ℕ → ℝ := fun j =>
  if h : j < A.c then (∑ i : Fin A.r, (A.f i ⟨j, h⟩) ^ 2) / (A.r : ℝ) else 0

/-- Broadcast subtraction of a row vector, `data -= v`. -/
def subRowVec (A : Mat) (v : ℕ → ℝ) : Mat :=
  ⟨A.r, A.c, fun i j => A.f i j - v (j : ℕ)⟩

/-- Broadcast division by a row vector, `data /= v`. -/
def divRowVec (A : Mat) (v : ℕ → ℝ) : Mat :=
  ⟨A.r, A.c, fun i j => A.f i j / v (j : ℕ)⟩

/-- Broadcast division by a column vector, `data /= v.T` for a row
vector `v`. -/
def divColVec (A : Mat) (v : ℕ → ℝ) : Mat :=
  ⟨A.r, A.c, fun i j => A.f i j / v (i : ℕ)⟩

/-- Main diagonal, `np.diag(data)`, as a vector. -/
def diagVec (A : Mat) : ℕ → ℝ := fun i =>
  if h : i < A.r ∧ i < A.c then A.f ⟨i, h.1⟩ ⟨i, h.2⟩ else 0

/-- Division of every entry by a scalar, `data / x`. -/
def divScalar (A : Mat) (x : ℝ) : Mat :=
  ⟨A.r, A.c, fun i j => A.f i j / x⟩

end Mat

/-- A column label: Python ints or strings. -/
def Label := ℕ ⊕ String

/-- Python truthiness of a value that may be `None`: `None` is falsy. -/
def truthy : Option Bool → Bool
  | none => false
  | some b => b

/-- The `data_opts` dictionary once populated by `load_data_samples` /
`load_data_cov` (`labels_dict` is omitted: it is `enumerate(labels)`,
determined by `labels`). `input_mean = none` models the Python value
`None` as well as the key still being absent before `load_data` runs. -/
structure DataOpts where
  preproc_demean : Option Bool
  preproc_scale : Bool
  labels : List Label
  input_mean : Option (ℕ → ℝ)
  input_scale : Option (ℕ → ℝ)

/-- The `retention_opts` dictionary; each key starts absent (`none`). -/
structure RetentionOpts where
  method : Option String
  num_keep : Option ℕ
  pct_keep : Option ℝ
  data_dim : Option ℕ
  fit_stick : Option (List ℝ)

/-- The `rotation_opts` dictionary; the `method` key starts absent. -/
structure RotationOpts where
  method : Option String

/-- The mutable fields of a `FactorAnalysis` object. `data_opts = none`
models the initial empty dict. -/
structure FAState where
  data_covar : Option Mat
  noise_covar : Option Mat
  data_opts : Option DataOpts
  retention_opts : RetentionOpts
  rotation_opts : RotationOpts
  comps_raw : Option Mat
  comps_paf : Option Mat
  comps_rot : Option Mat
  props_raw : Option (List ℝ)
  retain_idx : Option (List ℕ)

/-- The state established by `FactorAnalysis.__init__`. -/
def initState : FAState :=
  { data_covar := none
    noise_covar := none
    data_opts := none
    retention_opts := ⟨none, none, none, none, none⟩
    rotation_opts := ⟨none⟩
    comps_raw := none
    comps_paf := none
    comps_rot := none
    props_raw := none
    retain_idx := none }

/-- The exceptions raised by `factor_analysis.py`. The `Exception`s with
unknown-method / no-components messages are given their own
constructors, matching the spec names `UnknownMethod` and
`NoComponentsAvailable`. -/
inductive Err where
  | typeError (msg : String)
  | valueError (msg : String)
  | keyError (key : String)
  | nonSquareMatrix (name : String) (r c : ℕ)
  | dimensionMismatch (matchDim : ℕ) (pairs : List (String × ℕ))
  | unknownMethodRetention (m : String)
  | unknownMethodRotation (m : String)
  | noComponents
deriving DecidableEq

/-- The message built by `NonSquareMatrix.__init__` from its keyword
arguments (Python 2 semantics: `kwargs.keys()[0]` picks the first key of
the keyword-argument list); `none` when no keyword argument was given.
Each entry carries the argument's name and shape. -/
def nonSquareMessage (kwargs : List (String × ℕ × ℕ)) : Option String :=
  kwargs.head?.map fun nrc =>
    "The matrix \"" ++ nrc.1 ++ "\" was supposed to be square, but instead " ++
    "we got something with shape (" ++ toString nrc.2.1 ++ ", " ++
    toString nrc.2.2 ++ ")."

/-- `_cleanup_labels`: supplied labels must match the column count,
otherwise default to `range(p)`. -/
def cleanup_labels (data : Mat) (labels : Option (List Label)) :
    Except Err (List Label) :=
  match labels with
  | some l =>
      if l.length ≠ data.c then
        .error (.valueError ("Number of labels, " ++ toString l.length ++
          ", does not match number of data features, " ++ toString data.c))
      else .ok l
  | none => .ok ((List.range data.c).map Sum.inl)

/-- `FactorAnalysis.load_data(self, data, is_cov)`. Returns the result,
the state after the call, and the final value of the array that was
passed in (which the method mutates in place). The caller of this
method inside the class always populates `data_opts` first; the
`data_opts = none` branch models the `KeyError` a bare call on a fresh
object would hit when reading the preprocessing flags. -/
def load_data (s : FAState) (data : Mat) (is_cov : Bool) :
    Except Err Unit × FAState × Mat :=
  match s.data_opts with
  | none => (.error (.keyError "preproc_scale"), s, data)
  | some o =>
    if is_cov then
      if data.r ≠ data.c then
        (.error (.nonSquareMatrix "input_data" data.r data.c), s, data)
      else
        let scale : ℕ → ℝ := fun j => Real.sqrt (data.diagVec j)
        let o1 : DataOpts := { o with input_mean := none, input_scale := some scale }
        let data1 := if o.preproc_scale
          then (data.divRowVec scale).divColVec scale else data
        (.ok (), { s with data_opts := some o1, data_covar := some data1 }, data1)
    else
      let μ := data.colMean
      let data1 := if truthy o.preproc_demean then data.subRowVec μ else data
      let scale : ℕ → ℝ := fun j => Real.sqrt (data1.sqColMean j)
      let data2 := if o.preproc_scale then data1.divRowVec scale else data1
      let covar := (data2.transpose.mul data2).divScalar ((data2.r : ℝ) - 1)
      let o1 : DataOpts := { o with input_mean := some μ, input_scale := some scale }
      (.ok (), { s with data_opts := some o1, data_covar := some covar }, data2)

/-- `FactorAnalysis.load_data_samples`. The input is copied
(`input_data.copy()`) before any preprocessing, so the caller's array —
returned as the second component — is unchanged. The pandas branch is
not modelled (inputs are already numeric matrices). -/
def load_data_samples (input : Mat) (labels : Option (List Label))
    (preproc_demean preproc_scale : Bool) : Except Err FAState × Mat :=
  match cleanup_labels input labels with
  | .error e => (.error e, input)
  | .ok labs =>
    let o : DataOpts :=
      { preproc_demean := some preproc_demean
        preproc_scale := preproc_scale
        labels := labs
        input_mean := none
        input_scale := none }
    let s0 : FAState := { initState with data_opts := some o }
    match load_data s0 input false with
    | (.ok _, s1, _) => (.ok s1, input)
    | (.error e, _, _) => (.error e, input)

/-- `FactorAnalysis.load_data_cov`. The input is copied before use, so
the caller's array — returned as the second component — is unchanged.
`preproc_demean` is set to the Python value `None`. -/
def load_data_cov (input : Mat) (labels : Option (List Label))
    (preproc_scale : Bool) : Except Err FAState × Mat :=
  match cleanup_labels input labels with
  | .error e => (.error e, input)
  | .ok labs =>
    let o : DataOpts :=
      { preproc_demean := none
        preproc_scale := preproc_scale
        labels := labs
        input_mean := none
        input_scale := none }
    let s0 : FAState := { initState with data_opts := some o }
    match load_data s0 input true with
    | (.ok _, s1, _) => (.ok s1, input)
    | (.error e, _, _) => (.error e, input)

/-- `FactorAnalysis.add_noise_cov`: validates its argument (data covar
already loaded, square shape, matching dimension) and returns; it never
assigns to any field, so the state is returned unchanged on every
path. -/
def add_noise_cov (s : FAState) (input : Mat) : Except Err Unit × FAState :=
  match s.data_covar with
  | none => (.error (.valueError "Load data to define self.data_covar first"), s)
  | some dc =>
    if input.r ≠ input.c then
      (.error (.nonSquareMatrix "input_data" input.r input.c), s)
    else if input.r ≠ dc.r then
      (.error (.dimensionMismatch 1 [("noise_covar", input.c), ("input_data", dc.c)]), s)
    else
      (.ok (), s)

/-- The keyword arguments accepted by `find_comps_to_retain`. -/
structure RetKwargs where
  num_keep : Option ℕ
  pct_keep : Option ℝ
  data_dim : Option ℕ

/-- Modelled from the spec: `fa.retention.retain_top_n` (its module is
not in the sources) retains indices `0..min(n,p)-1`. -/
def retain_top_n (props : List ℝ) (n : ℕ) : List ℕ :=
  List.range (min n props.length)

/-- Modelled from the spec: length of the smallest prefix of `props`
whose cumulative sum reaches `pct` (all of `props` when never
reached). -/
def topPctLen : List ℝ → ℝ → ℕ
  | [], _ => 0
  | p :: rest, pct => if pct ≤ p then 1 else 1 + topPctLen rest (pct - p)

/-- Modelled from the spec: `fa.retention.retain_top_pct` retains the
smallest prefix whose cumulative proportion is at least `pct`. -/
def retain_top_pct (props : List ℝ) (pct : ℝ) : List ℕ :=
  List.range (topPctLen props pct)

/-- Modelled from the spec: `fa.retention.retain_kaiser` retains every
index whose proportion strictly exceeds `1 / data_dim`. -/
def retain_kaiser (props : List ℝ) (dataDim : ℕ) : List ℕ :=
  (List.range props.length).filter fun i =>
    decide ((1 : ℝ) / (dataDim : ℝ) < props.getD i 0)

/-- Modelled from the spec: the `BrokenStick` fit (its module is not in
the sources) is the list of broken-stick expectations
`E[k] = (1/p) * sum over i = k..p of 1/i` for ranks `k = 1..p`. -/
def brokenStickFit (props : List ℝ) : List ℝ :=
  let p := props.length
  (List.range p).map fun k =>
    (1 / (p : ℝ)) * ∑ i ∈ Finset.Icc (k + 1) p, (1 : ℝ) / (i : ℝ)

/-- Modelled from the spec: `fa.retention.retain_broken_stick` retains
every index whose observed proportion strictly exceeds the broken-stick
expectation at the same rank. -/
def retain_broken_stick (props : List ℝ) (fit : List ℝ) : List ℕ :=
  (List.range props.length).filter fun i =>
    decide (fit.getD i 0 < props.getD i 0)

/-- `FactorAnalysis.find_comps_to_retain`. Following the source, the
method name is written into `retention_opts` before it is dispatched,
so an unknown name raises with that key already updated. When
`props_raw` is still `None`, every known branch raises a `TypeError`
(`len(None)`, `BrokenStick(None)`, or the retention helper applied to
`None`) before `retain_idx` is assigned. -/
def find_comps_to_retain (s : FAState) (method : String) (kw : RetKwargs) :
    Except Err (List ℕ) × FAState :=
  let s1 := { s with retention_opts := { s.retention_opts with method := some method } }
  if method = "top_n" then
    let n := kw.num_keep.getD 5
    let s2 := { s1 with retention_opts := { s1.retention_opts with num_keep := some n } }
    match s2.props_raw with
    | none => (.error (.typeError "object of type NoneType"), s2)
    | some props =>
        let idx := retain_top_n props n
        (.ok idx, { s2 with retain_idx := some idx })
  else if method = "top_pct" then
    let pct := kw.pct_keep.getD (9 / 10 : ℝ)
    let s2 := { s1 with retention_opts := { s1.retention_opts with pct_keep := some pct } }
    match s2.props_raw with
    | none => (.error (.typeError "object of type NoneType"), s2)
    | some props =>
        let idx := retain_top_pct props pct
        (.ok idx, { s2 with retain_idx := some idx })
  else if method = "kaiser" then
    match s1.props_raw with
    | none => (.error (.typeError "object of type NoneType"), s1)
    | some props =>
        let d := kw.data_dim.getD props.length
        let s2 := { s1 with retention_opts := { s1.retention_opts with data_dim := some d } }
        let idx := retain_kaiser props d
        (.ok idx, { s2 with retain_idx := some idx })
  else if method = "broken_stick" then
    match s1.props_raw with
    | none => (.error (.typeError "object of type NoneType"), s1)
    | some props =>
        let fit := brokenStickFit props
        let s2 := { s1 with retention_opts := { s1.retention_opts with fit_stick := some fit } }
        let idx := retain_broken_stick props fit
        (.ok idx, { s2 with retain_idx := some idx })
  else
    (.error (.unknownMethodRetention method), s1)

/-- `FactorAnalysis.rotate_components`. The rotation modules
(`fa.rotation.*`, not in the sources) are abstracted as the parameter
`rot`, mapping the method name and the matrix handed to
`rot_obj.rotate` (`comps_paf` when present, else `comps_raw`) to the
rotated loadings. As in the source, the method name is written into
`rotation_opts` before dispatch, so an unknown name raises with that
key already updated. -/
def rotate_components (rot : String → Option Mat → Mat) (s : FAState)
    (method : String) : Except Err Unit × FAState :=
  let s1 := { s with rotation_opts := { method := some method } }
  if method = "varimax" ∨ method = "varimax_tf" ∨
      method = "quartimax" ∨ method = "quartimax_tf" then
    let src := if s1.comps_paf.isSome then s1.comps_paf else s1.comps_raw
    (.ok (), { s1 with comps_rot := some (rot method src) })
  else
    (.error (.unknownMethodRotation method), s1)

/-- The preprocessing block at the top of `get_component_scores`: the
caller's array is demeaned and scaled in place according to the stored
flags. The second component is the final value of the caller's array,
also when a flag set with its vector missing raises the `TypeError` of
an arithmetic operation against `None` (a raise in the scaling step
leaves the array already demeaned). -/
def apply_preproc (o : DataOpts) (X : Mat) : Except Err Mat × Mat :=
  let step1 : Except Err Mat :=
    if truthy o.preproc_demean then
      match o.input_mean with
      | none => .error (.typeError "unsupported operand type")
      | some μ => .ok (X.subRowVec μ)
    else .ok X
  match step1 with
  | .error e => (.error e, X)
  | .ok X1 =>
    if o.preproc_scale then
      match o.input_scale with
      | none => (.error (.typeError "unsupported operand type"), X1)
      | some σ => (.ok (X1.divRowVec σ), X1.divRowVec σ)
    else (.ok X1, X1)

/-- `FactorAnalysis.get_component_scores`. Returns the result, the
state after the call (never written to by this method), and the final
value of the caller's array, which the preprocessing block mutates in
place. `data_opts = none` models the `KeyError` on a fresh object. -/
def get_component_scores (s : FAState) (input : Mat) :
    Except Err Mat × FAState × Mat :=
  match s.data_opts with
  | none => (.error (.keyError "preproc_demean"), s, input)
  | some o =>
    match apply_preproc o input with
    | (.error e, Xf) => (.error e, s, Xf)
    | (.ok X1, _) =>
      match s.comps_rot with
      | some R => (.ok (X1.mul R), s, X1)
      | none =>
        match s.comps_paf with
        | some P => (.ok (X1.mul P), s, X1)
        | none =>
          match s.comps_raw with
          | some C => (.ok (X1.mul C), s, X1)
          | none => (.error .noComponents, s, X1)

/-- A trivial rotator, used to instantiate the abstract rotation
parameter of `rotate_components` in concrete evaluations. -/
def rotStub : String → Option Mat → Mat :=
  fun _ m => m.getD ⟨0, 0, fun _ _ => 0⟩

/-- One public instance-method call on a `FactorAnalysis` object.
`extract_components` and `reextract_using_paf` delegate to
`fa.extraction`, whose module is not in the sources; modelled from the
spec: the `extract` and `paf` constructors assign to exactly the fields
the source methods assign (`comps_raw`/`props_raw`, resp. `comps_paf`)
and leave the computed values unconstrained, which covers every
behavior of the missing numeric code; a call of theirs that raises
leaves the state unchanged, an identity transition that is omitted.
`load_data` carries the guard that `data_opts` is already populated,
which holds at its in-repo call sites. -/
inductive Step : FAState → FAState → Prop where
  | load (s : FAState) (data : Mat) (is_cov : Bool) (h : s.data_opts.isSome) :
      Step s (load_data s data is_cov).2.1
  | add_noise (s : FAState) (M : Mat) : Step s (add_noise_cov s M).2
  | extract (s : FAState) (C : Mat) (P : List ℝ) :
      Step s { s with comps_raw := some C, props_raw := some P }
  | retain (s : FAState) (m : String) (kw : RetKwargs) :
      Step s (find_comps_to_retain s m kw).2
  | paf (s : FAState) (C : Mat) : Step s { s with comps_paf := some C }
  | rotate (s : FAState) (rot : String → Option Mat → Mat) (m : String) :
      Step s (rotate_components rot s m).2
  | score (s : FAState) (X : Mat) : Step s (get_component_scores s X).2.1

/-- The states of a `FactorAnalysis` object reachable through the
public interface: a fresh `__init__` state, the state built by either
classmethod, or any reachable state followed by a public method
call. -/
inductive Reachable : FAState → Prop where
  | init : Reachable initState
  | from_samples (X : Mat) (labels : Option (List Label)) (d sc : Bool)
      (s : FAState) : (load_data_samples X labels d sc).1 = .ok s → Reachable s
  | from_cov (X : Mat) (labels : Option (List Label)) (sc : Bool)
      (s : FAState) : (load_data_cov X labels sc).1 = .ok s → Reachable s
  | step (s s' : FAState) : Reachable s → Step s s' → Reachable s'

/-- The covariance matrix described by the spec's sample path, written
from the spec's words for claim C8: compute column means; when
`demean`, subtract them; compute each column's root-mean-square
`sqrt(mean(X^2))` on the possibly-demeaned data; when `scale`, divide
each column by it; then form the matrix with entries
`sum over samples of Y_j * Y_k, divided by n - 1`. -/
def spec_sample_covar (X : Mat) (demean scale : Bool) : Mat :=
  let Y1 : Fin X.r → Fin X.c → ℝ := fun i j =>
    if demean then X.f i j - (∑ a : Fin X.r, X.f a j) / (X.r : ℝ) else X.f i j
  let rms : Fin X.c → ℝ := fun j =>
    Real.sqrt ((∑ a : Fin X.r, (Y1 a j) ^ 2) / (X.r : ℝ))
  let Y2 : Fin X.r → Fin X.c → ℝ := fun i j =>
    if scale then Y1 i j / rms j else Y1 i j
  ⟨X.c, X.c, fun j k => (∑ a : Fin X.r, Y2 a j * Y2 a k) / ((X.r : ℝ) - 1)⟩

/-- Entrywise equality of matrices with the same literal dimensions. -/
theorem Mat.mk_eq (r c : ℕ) (f g : Fin r → Fin c → ℝ)
    (h : ∀ i j, f i j = g i j) : Mat.mk r c f = Mat.mk r c g := by
  have : f = g := funext fun i => funext fun j => h i j
  rw [this]

/-- `find_comps_to_retain` writes only `retention_opts` and
`retain_idx`: every other field of the post-state equals the
corresponding field of the pre-state, on every branch including the
raising ones. -/
theorem find_comps_to_retain_frame (s : FAState) (m : String) (kw : RetKwargs) :
    (find_comps_to_retain s m kw).2.data_covar = s.data_covar ∧
    (find_comps_to_retain s m kw).2.noise_covar = s.noise_covar ∧
    (find_comps_to_retain s m kw).2.data_opts = s.data_opts ∧
    (find_comps_to_retain s m kw).2.comps_raw = s.comps_raw ∧
    (find_comps_to_retain s m kw).2.comps_paf = s.comps_paf ∧
    (find_comps_to_retain s m kw).2.comps_rot = s.comps_rot ∧
    (find_comps_to_retain s m kw).2.props_raw = s.props_raw ∧
    (find_comps_to_retain s m kw).2.rotation_opts = s.rotation_opts := by
  rcases s with ⟨dc, nc, dop, rto, roo, cr, cp, crot, pr, ri⟩
  unfold find_comps_to_retain
  cases pr
  all_goals repeat' split
  all_goals simp

/-- `get_component_scores` never writes to the object: the post-state
is the pre-state on every branch. -/
theorem get_component_scores_frame (s : FAState) (X : Mat) :
    (get_component_scores s X).2.1 = s := by
  unfold get_component_scores
  repeat' split
  all_goals rfl

/-- `load_data` assigns only `data_opts` and `data_covar`; in
particular `noise_covar` is untouched on every branch. -/
theorem load_data_noise (s : FAState) (data : Mat) (is_cov : Bool) :
    (load_data s data is_cov).2.1.noise_covar = s.noise_covar := by
  unfold load_data
  repeat' split
  all_goals rfl

/-- `add_noise_cov` only validates: the post-state equals the pre-state
on every branch, including the raising ones. -/
theorem add_noise_cov_frame (s : FAState) (M : Mat) :
    (add_noise_cov s M).2 = s := by
  unfold add_noise_cov
  repeat' split
  all_goals rfl

/-- `rotate_components` assigns only `rotation_opts` and `comps_rot`;
`noise_covar` is untouched on every branch. -/
theorem rotate_components_noise (rot : String → Option Mat → Mat)
    (s : FAState) (m : String) :
    (rotate_components rot s m).2.noise_covar = s.noise_covar := by
  unfold rotate_components
  repeat' split
  all_goals rfl

/-- A state built by `load_data_samples` has `noise_covar = None`. -/
theorem load_data_samples_noise (X : Mat) (l : Option (List Label))
    (d sc : Bool) (s : FAState)
    (h : (load_data_samples X l d sc).1 = .ok s) : s.noise_covar = none := by
  unfold load_data_samples at h
  split at h
  · exact absurd h (by simp)
  · simp only [] at h
    split at h
    · rename_i a s1 arr heq
      have hn := congrArg (fun t => t.2.1.noise_covar) heq
      simp only [load_data_noise] at hn
      simp [initState] at hn
      cases h
      exact hn.symm
    · exact absurd h (by simp)

/-- A state built by `load_data_cov` has `noise_covar = None`. -/
theorem load_data_cov_noise (X : Mat) (l : Option (List Label))
    (sc : Bool) (s : FAState)
    (h : (load_data_cov X l sc).1 = .ok s) : s.noise_covar = none := by
  unfold load_data_cov at h
  split at h
  · exact absurd h (by simp)
  · simp only [] at h
    split at h
    · rename_i a s1 arr heq
      have hn := congrArg (fun t => t.2.1.noise_covar) heq
      simp only [load_data_noise] at hn
      simp [initState] at hn
      cases h
      exact hn.symm
    · exact absurd h (by simp)

/-- C3: the `noise_covar` field is `None` in every reachable model
state — `add_noise_cov` validates its argument but never assigns it, no
other public call writes the field, and `__init__` sets it to `None`;
so extraction always receives `noise_covar = None`, for every sequence
of public calls. -/
theorem noise_covar_none_of_reachable (s : FAState) (h : Reachable s) :
    s.noise_covar = none := by
  induction h with
  | init => rfl
  | from_samples X l d sc s h => exact load_data_samples_noise X l d sc s h
  | from_cov X l sc s h => exact load_data_cov_noise X l sc s h
  | step s s' hr hstep ih =>
      cases hstep with
      | load data is_cov hdo => rw [load_data_noise]; exact ih
      | add_noise M => rw [add_noise_cov_frame]; exact ih
      | extract C P => simpa using ih
      | retain m kw => rw [(find_comps_to_retain_frame s m kw).2.1]; exact ih
      | paf C => simpa using ih
      | rotate rot m => rw [rotate_components_noise]; exact ih
      | score X => rw [get_component_scores_frame]; exact ih

/-- Witness for C3 at the concrete initial state. -/
theorem noise_covar_none_of_reachable_witness :
    Reachable initState ∧ initState.noise_covar = none :=
  ⟨Reachable.init, noise_covar_none_of_reachable initState Reachable.init⟩

/-- C4 counterexample: on a model that already has `comps_paf` and
`comps_rot` computed, re-running `find_comps_to_retain` (here with
`top_n`) succeeds but does NOT clear them — the stale components
survive, contradicting the claim that the call invalidates them. -/
theorem find_comps_to_retain_keeps_stale_comps_cex :
    (find_comps_to_retain
        { initState with
            comps_paf := some ⟨1, 1, fun _ _ => 1⟩
            comps_rot := some ⟨1, 1, fun _ _ => 2⟩
            props_raw := some [1] }
        "top_n" ⟨none, none, none⟩).2.comps_paf = some ⟨1, 1, fun _ _ => 1⟩ ∧
    (find_comps_to_retain
        { initState with
            comps_paf := some ⟨1, 1, fun _ _ => 1⟩
            comps_rot := some ⟨1, 1, fun _ _ => 2⟩
            props_raw := some [1] }
        "top_n" ⟨none, none, none⟩).2.comps_rot = some ⟨1, 1, fun _ _ => 2⟩ ∧
    (find_comps_to_retain
        { initState with
            comps_paf := some ⟨1, 1, fun _ _ => 1⟩
            comps_rot := some ⟨1, 1, fun _ _ => 2⟩
            props_raw := some [1] }
        "top_n" ⟨none, none, none⟩).1 = .ok [0] := by
  refine ⟨rfl, rfl, ?_⟩
  simp [find_comps_to_retain, retain_top_n]
  decide

/-- C4 amended: `find_comps_to_retain` never clears the
already-computed `comps_paf` and `comps_rot`: for every state, method
name and keyword arguments, both fields are exactly what they were
before the call, so stale PAF or rotated components DO survive a
changed retention choice. -/
theorem find_comps_to_retain_never_clears_downstream (s : FAState)
    (m : String) (kw : RetKwargs) :
    (find_comps_to_retain s m kw).2.comps_paf = s.comps_paf ∧
    (find_comps_to_retain s m kw).2.comps_rot = s.comps_rot :=
  ⟨(find_comps_to_retain_frame s m kw).2.2.2.2.1,
   (find_comps_to_retain_frame s m kw).2.2.2.2.2.1⟩

/-- C5: scoring is deterministic and leaves the model untouched —
`get_component_scores` returns the model state unchanged, so a second
call on an identical input matrix yields the identical result. -/
theorem score_twice_identical (s : FAState) (X : Mat) :
    (get_component_scores s X).2.1 = s ∧
    (get_component_scores ((get_component_scores s X).2.1) X).1 =
      (get_component_scores s X).1 := by
  refine ⟨get_component_scores_frame s X, ?_⟩
  rw [get_component_scores_frame s X]

/-- C1 counterexample: `find_comps_to_retain` with the unrecognized
method name `"bogus"` raises `UnknownMethod`, yet the failed call has
mutated the model: `retention_opts` records the bogus method name, so
the fields are NOT all the same after the failed call as before it. -/
theorem find_comps_to_retain_unknown_mutates_opts_cex :
    (find_comps_to_retain initState "bogus" ⟨none, none, none⟩).1 =
      .error (.unknownMethodRetention "bogus") ∧
    (find_comps_to_retain initState "bogus" ⟨none, none, none⟩).2.retention_opts ≠
      initState.retention_opts := by
  constructor
  · simp [find_comps_to_retain]
  · intro h
    have h2 := congrArg RetentionOpts.method h
    simp [find_comps_to_retain, initState] at h2

/-- C1 amended: a call of `find_comps_to_retain` or `rotate_components`
that fails on an unrecognized method name raises `UnknownMethod` and
leaves `data_covar`, `noise_covar`, `data_opts`, `comps_raw`,
`comps_paf`, `comps_rot`, `props_raw` and `retain_idx` untouched, but
the failed call first records the attempted method name in
`retention_opts['method']` (resp. `rotation_opts['method']`), so those
two option dictionaries are not restored on failure. -/
theorem failed_dispatch_touches_only_method_opts (s : FAState) (m : String)
    (kw : RetKwargs) (rot : String → Option Mat → Mat)
    (hret : m ∉ (["top_n", "top_pct", "kaiser", "broken_stick"] : List String))
    (hrot : m ∉ (["varimax", "varimax_tf", "quartimax", "quartimax_tf"] : List String)) :
    ((find_comps_to_retain s m kw).1 = .error (.unknownMethodRetention m) ∧
      (find_comps_to_retain s m kw).2 =
        { s with retention_opts := { s.retention_opts with method := some m } }) ∧
    ((rotate_components rot s m).1 = .error (.unknownMethodRotation m) ∧
      (rotate_components rot s m).2 =
        { s with rotation_opts := { method := some m } }) := by
  have r1 : ¬ m = "top_n" := fun e => hret (by rw [e]; simp)
  have r2 : ¬ m = "top_pct" := fun e => hret (by rw [e]; simp)
  have r3 : ¬ m = "kaiser" := fun e => hret (by rw [e]; simp)
  have r4 : ¬ m = "broken_stick" := fun e => hret (by rw [e]; simp)
  have rr : ¬ (m = "varimax" ∨ m = "varimax_tf" ∨
      m = "quartimax" ∨ m = "quartimax_tf") := by
    intro h
    rcases h with e | e | e | e <;> exact hrot (by rw [e]; simp)
  constructor
  · unfold find_comps_to_retain
    rw [if_neg r1, if_neg r2, if_neg r3, if_neg r4]
    exact ⟨rfl, rfl⟩
  · unfold rotate_components
    rw [if_neg rr]
    exact ⟨rfl, rfl⟩

/-- Witness for the amended C1 at the concrete method name `"bogus"`. -/
theorem failed_dispatch_touches_only_method_opts_witness :
    ("bogus" ∉ (["top_n", "top_pct", "kaiser", "broken_stick"] : List String)) ∧
    ("bogus" ∉ (["varimax", "varimax_tf", "quartimax", "quartimax_tf"] : List String)) ∧
    (((find_comps_to_retain initState "bogus" ⟨none, none, none⟩).1 =
        .error (.unknownMethodRetention "bogus") ∧
      (find_comps_to_retain initState "bogus" ⟨none, none, none⟩).2 =
        { initState with retention_opts :=
            { initState.retention_opts with method := some "bogus" } }) ∧
    ((rotate_components rotStub initState "bogus").1 =
        .error (.unknownMethodRotation "bogus") ∧
      (rotate_components rotStub initState "bogus").2 =
        { initState with rotation_opts := { method := some "bogus" } })) :=
  ⟨by decide, by decide,
    failed_dispatch_touches_only_method_opts initState "bogus" ⟨none, none, none⟩
      rotStub (by decide) (by decide)⟩

/-- C7 counterexample: `"varimax_tf"` lies outside the claimed set
`{varimax, quartimax}`, yet `rotate_components` does not raise
`UnknownMethod` for it — the call succeeds. -/
theorem rotate_varimax_tf_no_unknown_method_cex :
    (rotate_components rotStub initState "varimax_tf").1 = .ok () ∧
    "varimax_tf" ∉ (["varimax", "quartimax"] : List String) := by
  constructor
  · simp [rotate_components]
  · decide

/-- C7 amended: `find_comps_to_retain` raises `UnknownMethod` exactly
for method names outside `{top_n, top_pct, kaiser, broken_stick}`, and
`rotate_components` raises `UnknownMethod` exactly for names outside
`{varimax, varimax_tf, quartimax, quartimax_tf}` (the source also
accepts the two `_tf` variants). -/
theorem unknown_method_dispatch_exact (s : FAState) (m : String)
    (kw : RetKwargs) (rot : String → Option Mat → Mat) :
    ((find_comps_to_retain s m kw).1 = .error (.unknownMethodRetention m) ↔
      m ∉ (["top_n", "top_pct", "kaiser", "broken_stick"] : List String)) ∧
    ((rotate_components rot s m).1 = .error (.unknownMethodRotation m) ↔
      m ∉ (["varimax", "varimax_tf", "quartimax", "quartimax_tf"] : List String)) := by
  constructor
  · by_cases h1 : m = "top_n"
    · subst h1
      cases hp : s.props_raw <;> simp [find_comps_to_retain, hp]
    · by_cases h2 : m = "top_pct"
      · subst h2
        cases hp : s.props_raw <;> simp [find_comps_to_retain, hp]
      · by_cases h3 : m = "kaiser"
        · subst h3
          cases hp : s.props_raw <;> simp [find_comps_to_retain, hp]
        · by_cases h4 : m = "broken_stick"
          · subst h4
            cases hp : s.props_raw <;> simp [find_comps_to_retain, hp]
          · simp [find_comps_to_retain, h1, h2, h3, h4]
  · by_cases h : (m = "varimax" ∨ m = "varimax_tf" ∨
        m = "quartimax" ∨ m = "quartimax_tf")
    · simp only [rotate_components, if_pos h]
      simp only [List.mem_cons, List.not_mem_nil]
      constructor
      · intro hh; exact absurd hh (by simp)
      · intro hh; exact absurd (by tauto) hh
    · simp only [rotate_components, if_neg h]
      simp only [List.mem_cons, List.not_mem_nil]
      constructor
      · intro _ hh; exact h (by tauto)
      · intro _; trivial

/-- C2: scoring preference order — `get_component_scores` projects the
preprocessed input onto `comps_rot` when present, else `comps_paf`,
else `comps_raw`, and raises `NoComponentsAvailable` when all three are
`None`, for every model state whose preprocessing succeeds. -/
theorem score_preference_order (s : FAState) (X : Mat) (o : DataOpts)
    (ho : s.data_opts = some o) (Y : Mat)
    (hp : (apply_preproc o X).1 = .ok Y) :
    (∀ R, s.comps_rot = some R →
        (get_component_scores s X).1 = .ok (Y.mul R)) ∧
    (s.comps_rot = none → ∀ P, s.comps_paf = some P →
        (get_component_scores s X).1 = .ok (Y.mul P)) ∧
    (s.comps_rot = none → s.comps_paf = none → ∀ C, s.comps_raw = some C →
        (get_component_scores s X).1 = .ok (Y.mul C)) ∧
    (s.comps_rot = none → s.comps_paf = none → s.comps_raw = none →
        (get_component_scores s X).1 = .error .noComponents) := by
  unfold get_component_scores
  rw [ho]
  rcases hap : apply_preproc o X with ⟨res, arr⟩
  rw [hap] at hp
  simp only at hp
  subst hp
  refine ⟨?_, ?_, ?_, ?_⟩
  · intro R hR; simp [hR, hap]
  · intro h0 P hP; simp [h0, hP, hap]
  · intro h0 h1 C hC; simp [h0, h1, hC, hap]
  · intro h0 h1 h2; simp [h0, h1, h2, hap]

/-- Witness for C2 at a concrete fitted state (only `comps_raw`
present, no preprocessing flags). -/
theorem score_preference_order_witness :
    ({ initState with
        data_opts := some ⟨some false, false, [], none, none⟩
        comps_raw := some ⟨1, 1, fun _ _ => 1⟩ } : FAState).data_opts =
      some ⟨some false, false, [], none, none⟩ ∧
    (apply_preproc ⟨some false, false, [], none, none⟩ ⟨1, 1, fun _ _ => 1⟩).1 =
      .ok ⟨1, 1, fun _ _ => 1⟩ ∧
    ((∀ R, ({ initState with
        data_opts := some ⟨some false, false, [], none, none⟩
        comps_raw := some ⟨1, 1, fun _ _ => 1⟩ } : FAState).comps_rot = some R →
        (get_component_scores { initState with
          data_opts := some ⟨some false, false, [], none, none⟩
          comps_raw := some ⟨1, 1, fun _ _ => 1⟩ } ⟨1, 1, fun _ _ => 1⟩).1 =
          .ok (Mat.mul ⟨1, 1, fun _ _ => 1⟩ R)) ∧
     (({ initState with
        data_opts := some ⟨some false, false, [], none, none⟩
        comps_raw := some ⟨1, 1, fun _ _ => 1⟩ } : FAState).comps_rot = none →
      ∀ P, ({ initState with
        data_opts := some ⟨some false, false, [], none, none⟩
        comps_raw := some ⟨1, 1, fun _ _ => 1⟩ } : FAState).comps_paf = some P →
        (get_component_scores { initState with
          data_opts := some ⟨some false, false, [], none, none⟩
          comps_raw := some ⟨1, 1, fun _ _ => 1⟩ } ⟨1, 1, fun _ _ => 1⟩).1 =
          .ok (Mat.mul ⟨1, 1, fun _ _ => 1⟩ P)) ∧
     (({ initState with
        data_opts := some ⟨some false, false, [], none, none⟩
        comps_raw := some ⟨1, 1, fun _ _ => 1⟩ } : FAState).comps_rot = none →
      ({ initState with
        data_opts := some ⟨some false, false, [], none, none⟩
        comps_raw := some ⟨1, 1, fun _ _ => 1⟩ } : FAState).comps_paf = none →
      ∀ C, ({ initState with
        data_opts := some ⟨some false, false, [], none, none⟩
        comps_raw := some ⟨1, 1, fun _ _ => 1⟩ } : FAState).comps_raw = some C →
        (get_component_scores { initState with
          data_opts := some ⟨some false, false, [], none, none⟩
          comps_raw := some ⟨1, 1, fun _ _ => 1⟩ } ⟨1, 1, fun _ _ => 1⟩).1 =
          .ok (Mat.mul ⟨1, 1, fun _ _ => 1⟩ C)) ∧
     (({ initState with
        data_opts := some ⟨some false, false, [], none, none⟩
        comps_raw := some ⟨1, 1, fun _ _ => 1⟩ } : FAState).comps_rot = none →
      ({ initState with
        data_opts := some ⟨some false, false, [], none, none⟩
        comps_raw := some ⟨1, 1, fun _ _ => 1⟩ } : FAState).comps_paf = none →
      ({ initState with
        data_opts := some ⟨some false, false, [], none, none⟩
        comps_raw := some ⟨1, 1, fun _ _ => 1⟩ } : FAState).comps_raw = none →
        (get_component_scores { initState with
          data_opts := some ⟨some false, false, [], none, none⟩
          comps_raw := some ⟨1, 1, fun _ _ => 1⟩ } ⟨1, 1, fun _ _ => 1⟩).1 =
          .error .noComponents)) :=
  ⟨rfl, rfl,
    score_preference_order
      { initState with
          data_opts := some ⟨some false, false, [], none, none⟩
          comps_raw := some ⟨1, 1, fun _ _ => 1⟩ }
      ⟨1, 1, fun _ _ => 1⟩ ⟨some false, false, [], none, none⟩ rfl
      ⟨1, 1, fun _ _ => 1⟩ rfl⟩

/-- When the preprocessing block succeeds, the final value of the
caller's array is exactly the returned preprocessed matrix. -/
theorem apply_preproc_ok (o : DataOpts) (Z W : Mat)
    (h : (apply_preproc o Z).1 = .ok W) : (apply_preproc o Z).2 = W := by
  unfold apply_preproc at h ⊢
  repeat' split at h
  all_goals simp_all

/-- C6: `get_component_scores` mutates the caller's input array in
place — the caller's array ends as the preprocessed matrix (mean
subtracted when `preproc_demean` is set, divided by `input_scale` when
`preproc_scale` is set), with no defensive copy — while
`load_data_samples` and `load_data_cov` copy their input first, leaving
the caller's matrix unchanged. -/
theorem score_mutates_input_loaders_copy
    (X : Mat) (l : Option (List Label)) (d sc : Bool)
    (Y : Mat) (l2 : Option (List Label)) (sc2 : Bool)
    (s : FAState) (o : DataOpts) (Z : Mat) (μ σ : ℕ → ℝ)
    (ho : s.data_opts = some o) :
    ((load_data_samples X l d sc).2 = X) ∧
    ((load_data_cov Y l2 sc2).2 = Y) ∧
    ((get_component_scores s Z).2.2 = (apply_preproc o Z).2) ∧
    (truthy o.preproc_demean = true → o.input_mean = some μ →
      o.preproc_scale = false → (apply_preproc o Z).2 = Z.subRowVec μ) ∧
    (truthy o.preproc_demean = false → o.preproc_scale = true →
      o.input_scale = some σ → (apply_preproc o Z).2 = Z.divRowVec σ) := by
  refine ⟨?_, ?_, ?_, ?_, ?_⟩
  · unfold load_data_samples
    split
    · rfl
    · simp only []
      split
      all_goals rfl
  · unfold load_data_cov
    split
    · rfl
    · simp only []
      split
      all_goals rfl
  · unfold get_component_scores
    rw [ho]
    rcases hap : apply_preproc o Z with ⟨res, arr⟩
    cases res with
    | error e => simp [hap]
    | ok W =>
        have h2 : (apply_preproc o Z).2 = W := by
          apply apply_preproc_ok
          rw [hap]
        rw [hap] at h2
        simp only at h2
        subst h2
        cases hrot : s.comps_rot <;> cases hpaf : s.comps_paf <;>
          cases hraw : s.comps_raw <;> simp [hap]
  · intro h1 h2 h3
    unfold apply_preproc
    rw [h1, h2, h3]
    simp
  · intro h1 h2 h3
    unfold apply_preproc
    rw [h1, h2, h3]
    simp

/-- Witness for C6 at concrete inputs: a demeaning model state whose
stored mean is the constant-1 row vector, applied to a concrete 1×1
input matrix. -/
theorem score_mutates_input_loaders_copy_witness :
    ({ initState with data_opts := some ⟨some true, false, [], some (fun _ => 1), none⟩ }
        : FAState).data_opts = some ⟨some true, false, [], some (fun _ => 1), none⟩ ∧
    ((load_data_samples ⟨1, 1, fun _ _ => 5⟩ none false false).2 = ⟨1, 1, fun _ _ => 5⟩) ∧
    ((load_data_cov ⟨1, 1, fun _ _ => 5⟩ none false).2 = ⟨1, 1, fun _ _ => 5⟩) ∧
    ((get_component_scores
        { initState with data_opts := some ⟨some true, false, [], some (fun _ => 1), none⟩ }
        ⟨1, 1, fun _ _ => 5⟩).2.2 =
      (apply_preproc ⟨some true, false, [], some (fun _ => 1), none⟩ ⟨1, 1, fun _ _ => 5⟩).2) ∧
    (truthy (⟨some true, false, [], some (fun _ => 1), none⟩ : DataOpts).preproc_demean = true →
      (⟨some true, false, [], some (fun _ => 1), none⟩ : DataOpts).input_mean = some (fun _ => 1) →
      (⟨some true, false, [], some (fun _ => 1), none⟩ : DataOpts).preproc_scale = false →
      (apply_preproc ⟨some true, false, [], some (fun _ => 1), none⟩ ⟨1, 1, fun _ _ => 5⟩).2 =
        Mat.subRowVec ⟨1, 1, fun _ _ => 5⟩ (fun _ => 1)) ∧
    (truthy (⟨some true, false, [], some (fun _ => 1), none⟩ : DataOpts).preproc_demean = false →
      (⟨some true, false, [], some (fun _ => 1), none⟩ : DataOpts).preproc_scale = true →
      (⟨some true, false, [], some (fun _ => 1), none⟩ : DataOpts).input_scale = some (fun _ => 1) →
      (apply_preproc ⟨some true, false, [], some (fun _ => 1), none⟩ ⟨1, 1, fun _ _ => 5⟩).2 =
        Mat.divRowVec ⟨1, 1, fun _ _ => 5⟩ (fun _ => 1)) :=
  ⟨rfl,
    score_mutates_input_loaders_copy
      ⟨1, 1, fun _ _ => 5⟩ none false false
      ⟨1, 1, fun _ _ => 5⟩ none false
      { initState with data_opts := some ⟨some true, false, [], some (fun _ => 1), none⟩ }
      ⟨some true, false, [], some (fun _ => 1), none⟩
      ⟨1, 1, fun _ _ => 5⟩ (fun _ => 1) (fun _ => 1) rfl⟩

/-- `colMean` at an in-range index. -/
theorem Mat.colMean_coe (A : Mat) (j : Fin A.c) :
    A.colMean (j : ℕ) = (∑ i : Fin A.r, A.f i j) / (A.r : ℝ) := by
  unfold Mat.colMean
  rw [dif_pos j.isLt]

/-- `sqColMean` at an in-range index. -/
theorem Mat.sqColMean_coe (A : Mat) (j : Fin A.c) :
    A.sqColMean (j : ℕ) = (∑ i : Fin A.r, (A.f i j) ^ 2) / (A.r : ℝ) := by
  unfold Mat.sqColMean
  rw [dif_pos j.isLt]

/-- The entries of `A.T.dot(A)`. -/
theorem Mat.transpose_mul_f (A : Mat) (j k : Fin A.c) :
    (A.transpose.mul A).f j k = ∑ i : Fin A.r, A.f i j * A.f i k := by
  show (∑ i : Fin A.r, A.f i j * if h : (i : ℕ) < A.r then A.f ⟨i, h⟩ k else 0) = _
  apply Finset.sum_congr rfl
  intro i _
  rw [dif_pos i.isLt]

/-- C8: for every n×p input matrix and both preprocessing flags,
`load_data_samples` succeeds and stores exactly the covariance the spec
describes: column means subtracted when `preproc_demean` is set, each
column divided by its root-mean-square (computed on the possibly
demeaned data) when `preproc_scale` is set, then `X.T.dot(X) / (n-1)`. -/
theorem sample_covar_matches_spec_formula (X : Mat) (d sc : Bool) :
    ∃ s, (load_data_samples X none d sc).1 = .ok s ∧
      s.data_covar = some (spec_sample_covar X d sc) := by
  refine ⟨_, rfl, ?_⟩
  refine congrArg some ?_
  unfold spec_sample_covar
  cases d <;> cases sc <;>
    simp only [truthy, Bool.false_eq_true, if_true, if_false, Mat.divScalar,
      Mat.subRowVec, Mat.divRowVec, load_data, load_data_samples] <;>
    · apply Mat.mk_eq
      intro j k
      rw [Mat.transpose_mul_f]
      simp [Mat.subRowVec, Mat.divRowVec, Mat.colMean_coe, Mat.sqColMean_coe]

/-- `np.diag` of a square matrix literal at an in-range index. -/
theorem Mat.diagVec_coe (p : ℕ) (M : Fin p → Fin p → ℝ) (i : Fin p) :
    (Mat.mk p p M).diagVec (i : ℕ) = M i i := by
  unfold Mat.diagVec
  rw [dif_pos ⟨i.isLt, i.isLt⟩]

/-- C9: `load_data_cov` with `preproc_scale = True` on a p×p diagonal
matrix with strictly positive diagonal stores a `data_covar` whose
diagonal entries all equal 1 (outer normalization by `sqrt(diagonal)`
yields a correlation matrix with unit diagonal). -/
theorem cov_diag_scale_unit_diagonal (p : ℕ) (M : Fin p → Fin p → ℝ)
    (hdiag : ∀ i j, i ≠ j → M i j = 0) (hpos : ∀ i, 0 < M i i) :
    ∃ s, (load_data_cov ⟨p, p, M⟩ none true).1 = .ok s ∧
      ∃ N : Fin p → Fin p → ℝ, s.data_covar = some (Mat.mk p p N) ∧
        ∀ i, N i i = 1 := by
  simp only [load_data_cov, cleanup_labels, load_data]
  simp only [initState]
  simp only [ne_eq, not_true_eq_false, if_false, if_true, ite_self]
  refine ⟨_, rfl, ?_⟩
  refine ⟨_, rfl, ?_⟩
  intro i
  show (⟨p, p, M⟩ : Mat).f i i / Real.sqrt ((Mat.mk p p M).diagVec (i : ℕ)) /
      Real.sqrt ((Mat.mk p p M).diagVec (i : ℕ)) = 1
  rw [Mat.diagVec_coe]
  show M i i / Real.sqrt (M i i) / Real.sqrt (M i i) = 1
  rw [div_div, Real.mul_self_sqrt (le_of_lt (hpos i))]
  exact div_self (ne_of_gt (hpos i))

/-- Witness for C9 at the concrete 2×2 diagonal matrix `diag(4, 4)`. -/
theorem cov_diag_scale_unit_diagonal_witness :
    (∀ i j : Fin 2, i ≠ j →
      (fun _ _ : Fin 2 => (4 : ℝ)) i j * (if i = j then 1 else 0) = 0) ∧
    (∀ i : Fin 2, (0 : ℝ) <
      (fun i j : Fin 2 => (4 : ℝ) * (if i = j then 1 else 0)) i i) ∧
    (∃ s, (load_data_cov
        ⟨2, 2, fun i j => (4 : ℝ) * (if i = j then 1 else 0)⟩ none true).1 = .ok s ∧
      ∃ N : Fin 2 → Fin 2 → ℝ, s.data_covar = some (Mat.mk 2 2 N) ∧
        ∀ i, N i i = 1) := by
  refine ⟨?_, ?_, ?_⟩
  · intro i j h; simp [h]
  · intro i; simp
  · exact cov_diag_scale_unit_diagonal 2 (fun i j => (4 : ℝ) * (if i = j then 1 else 0))
      (fun i j h => by simp [h]) (fun i => by simp)

/-- C10: a non-square matrix is rejected — `load_data_cov` fails with
`NonSquareMatrix`, `add_noise_cov` on a model with `data_covar` loaded
likewise fails with `NonSquareMatrix` for a non-square noise matrix,
and building the `NonSquareMatrix` message from the single keyword
argument passed at both call sites is well-defined (Python 2
`kwargs.keys()[0]` on a one-entry dict). -/
theorem non_square_rejection (A : Mat) (hA : A.r ≠ A.c)
    (s : FAState) (hs : s.data_covar.isSome) :
    (load_data_cov A none false).1 =
      .error (.nonSquareMatrix "input_data" A.r A.c) ∧
    (add_noise_cov s A).1 =
      .error (.nonSquareMatrix "input_data" A.r A.c) ∧
    nonSquareMessage [("input_data", A.r, A.c)] =
      some ("The matrix \"input_data\" was supposed to be square, but instead " ++
        "we got something with shape (" ++ toString A.r ++ ", " ++
        toString A.c ++ ").") := by
  refine ⟨?_, ?_, rfl⟩
  · simp only [load_data_cov, cleanup_labels, load_data]
    simp [initState, hA]
  · unfold add_noise_cov
    rcases hdc : s.data_covar with _ | dc
    · rw [hdc] at hs; simp at hs
    · simp [hA]

/-- Witness for C10 at a concrete 2×3 zero matrix and a model with a
1×1 data covariance loaded. -/
theorem non_square_rejection_witness :
    ((⟨2, 3, fun _ _ => 0⟩ : Mat).r ≠ (⟨2, 3, fun _ _ => 0⟩ : Mat).c) ∧
    ({ initState with data_covar := some ⟨1, 1, fun _ _ => 0⟩ }
        : FAState).data_covar.isSome = true ∧
    ((load_data_cov ⟨2, 3, fun _ _ => 0⟩ none false).1 =
      .error (.nonSquareMatrix "input_data" (⟨2, 3, fun _ _ => 0⟩ : Mat).r
        (⟨2, 3, fun _ _ => 0⟩ : Mat).c) ∧
    (add_noise_cov { initState with data_covar := some ⟨1, 1, fun _ _ => 0⟩ }
        ⟨2, 3, fun _ _ => 0⟩).1 =
      .error (.nonSquareMatrix "input_data" (⟨2, 3, fun _ _ => 0⟩ : Mat).r
        (⟨2, 3, fun _ _ => 0⟩ : Mat).c) ∧
    nonSquareMessage [("input_data", (⟨2, 3, fun _ _ => 0⟩ : Mat).r,
        (⟨2, 3, fun _ _ => 0⟩ : Mat).c)] =
      some ("The matrix \"input_data\" was supposed to be square, but instead " ++
        "we got something with shape (" ++ toString (⟨2, 3, fun _ _ => 0⟩ : Mat).r ++
        ", " ++ toString (⟨2, 3, fun _ _ => 0⟩ : Mat).c ++ ").")) :=
  ⟨by decide, rfl,
    non_square_rejection ⟨2, 3, fun _ _ => 0⟩ (by decide)
      { initState with data_covar := some ⟨1, 1, fun _ _ => 0⟩ } rfl⟩
